import Mathlib

/-!
Verification of the Sharp LS037V7DW06 panel driver power-sequencing core
(`src/ls037v7dw06/ls037v7dw06.c`).

The driver's behavioural core is two straight-line functions,
`sharp_ls_enable` and `sharp_ls_disable`, each manipulating a fixed set of
hardware resources (a regulator, three GPIO lines, an SMBus register
channel and a backlight device) in a fixed order with early return on the
first failing fallible call.

We embed the two functions as pure Lean functions over an explicit panel /
hardware state.  The fallible external calls (`regulator_enable`,
`regulator_disable`, `i2c_smbus_write_byte_data`) are modelled by an
environment `Env` that supplies the integer return value of each call
site, so quantifying over `Env` quantifies over every fault-injection
scenario.  Each run also produces a trace of the externally visible
actions (line writes, sleeps, register writes, backlight updates), in the
order the C code performs them.
-/

/-- Opcode constants of the driver (`#define LS037V7DW06_SLEEP_OFF 0x10`). -/
def LS037V7DW06_SLEEP_OFF : Nat := 0x10

/-- `#define LS037V7DW06_SLEEP_ON 0x11`. -/
def LS037V7DW06_SLEEP_ON : Nat := 0x11

/-- `#define LS037V7DW06_DISP_OFF 0x28`. -/
def LS037V7DW06_DISP_OFF : Nat := 0x28

/-- `#define LS037V7DW06_DISP_ON 0x29`. -/
def LS037V7DW06_DISP_ON : Nat := 0x29

/-- Linux `FB_BLANK_UNBLANK` (value 0). -/
def FB_BLANK_UNBLANK : Nat := 0

/-- Linux `FB_BLANK_POWERDOWN` (value 4). -/
def FB_BLANK_POWERDOWN : Nat := 4

/-- Linux `BL_CORE_FBBLANK` (bit 1, value 2). -/
def BL_CORE_FBBLANK : Nat := 2

/-- Mask for `state &= ~BL_CORE_FBBLANK` on the 32-bit `state` word. -/
def NOT_BL_CORE_FBBLANK : Nat := 0xFFFFFFFD

/-- One externally visible action of the driver, in program order. -/
inductive Ev where
  | setResb (v : Bool)
  | setIso (v : Bool)
  | setClk (v : Bool)
  | regEnable
  | regDisable
  | sleepMs (ms : Nat)
  | i2cWrite (reg : Nat) (val : Nat)
  | backlightUpdate
  deriving DecidableEq, Repr

/-- The observable state: the `struct panel_ls037v7dw06` flag `enabled`,
the levels of the three GPIO lines, the regulator, and the backlight
device's property fields (`power`, `state`, `brightness`,
`max_brightness`). -/
structure Panel where
  enabled : Bool
  railOn : Bool
  resb : Bool
  clk : Bool
  i2ciso : Bool
  blPower : Nat
  blState : Nat
  blBrightness : Nat
  blMaxBrightness : Nat
  deriving DecidableEq, Repr

/-- Fault-injection environment: the integer return value of each fallible
external call site, in the order the sites appear in the C file. -/
structure Env where
  regulatorEnableRet : Int
  writeSleepOnRet : Int
  writeDispOnRet : Int
  writeDispOffRet : Int
  writeSleepOffRet : Int
  regulatorDisableRet : Int
  deriving DecidableEq, Repr

/-- Embedding of `sharp_ls_enable`: drive RESB low, drive the i2c
isolation line low, enable the regulator (abort on failure), sleep 10 ms,
drive RESB high, sleep 1 ms, write `LS037V7DW06_SLEEP_ON` (abort on
failure), sleep 100 ms, write `LS037V7DW06_DISP_ON` (abort on failure),
drive the clock line high, unblank the backlight at maximum brightness,
set `enabled`, and return the last `retval`. -/
def sharp_ls_enable (env : Env) (p : Panel) : Int × Panel × List Ev :=
  let p := { p with resb := false }
  let p := { p with i2ciso := false }
  if env.regulatorEnableRet ≠ 0 then
    (env.regulatorEnableRet, p,
     [Ev.setResb false, Ev.setIso false, Ev.regEnable])
  else
  let p := { p with railOn := true }
  let p := { p with resb := true }
  if env.writeSleepOnRet ≠ 0 then
    (env.writeSleepOnRet, p,
     [Ev.setResb false, Ev.setIso false, Ev.regEnable, Ev.sleepMs 10,
      Ev.setResb true, Ev.sleepMs 1, Ev.i2cWrite LS037V7DW06_SLEEP_ON 0x00])
  else
  if env.writeDispOnRet ≠ 0 then
    (env.writeDispOnRet, p,
     [Ev.setResb false, Ev.setIso false, Ev.regEnable, Ev.sleepMs 10,
      Ev.setResb true, Ev.sleepMs 1, Ev.i2cWrite LS037V7DW06_SLEEP_ON 0x00,
      Ev.sleepMs 100, Ev.i2cWrite LS037V7DW06_DISP_ON 0x00])
  else
  let p := { p with clk := true }
  let p := { p with
    blState := p.blState.land NOT_BL_CORE_FBBLANK,
    blPower := FB_BLANK_UNBLANK,
    blBrightness := p.blMaxBrightness }
  let p := { p with enabled := true }
  (env.writeDispOnRet, p,
   [Ev.setResb false, Ev.setIso false, Ev.regEnable, Ev.sleepMs 10,
    Ev.setResb true, Ev.sleepMs 1, Ev.i2cWrite LS037V7DW06_SLEEP_ON 0x00,
    Ev.sleepMs 100, Ev.i2cWrite LS037V7DW06_DISP_ON 0x00,
    Ev.setClk true, Ev.backlightUpdate])

/-- Embedding of `sharp_ls_disable`: power down and blank the backlight at
zero brightness, drive the clock line low, sleep 1 ms, write
`LS037V7DW06_DISP_OFF` (abort on failure), sleep 20 ms, write
`LS037V7DW06_SLEEP_OFF` (abort on failure), sleep 100 ms, drive RESB low,
sleep 1 ms, disable the regulator, and return its `retval`.  Note the C
function never clears the `enabled` flag. -/
def sharp_ls_disable (env : Env) (p : Panel) : Int × Panel × List Ev :=
  let p := { p with
    blPower := FB_BLANK_POWERDOWN,
    blState := p.blState.lor BL_CORE_FBBLANK,
    blBrightness := 0 }
  let p := { p with clk := false }
  if env.writeDispOffRet ≠ 0 then
    (env.writeDispOffRet, p,
     [Ev.backlightUpdate, Ev.setClk false, Ev.sleepMs 1,
      Ev.i2cWrite LS037V7DW06_DISP_OFF 0x00])
  else
  if env.writeSleepOffRet ≠ 0 then
    (env.writeSleepOffRet, p,
     [Ev.backlightUpdate, Ev.setClk false, Ev.sleepMs 1,
      Ev.i2cWrite LS037V7DW06_DISP_OFF 0x00, Ev.sleepMs 20,
      Ev.i2cWrite LS037V7DW06_SLEEP_OFF 0x00])
  else
  let p := { p with resb := false }
  let p := if env.regulatorDisableRet ≠ 0 then p else { p with railOn := false }
  (env.regulatorDisableRet, p,
   [Ev.backlightUpdate, Ev.setClk false, Ev.sleepMs 1,
    Ev.i2cWrite LS037V7DW06_DISP_OFF 0x00, Ev.sleepMs 20,
    Ev.i2cWrite LS037V7DW06_SLEEP_OFF 0x00, Ev.sleepMs 100,
    Ev.setResb false, Ev.sleepMs 1, Ev.regDisable])

/-- The register writes (address, payload) of a trace, in order. -/
def regWrites : List Ev → List (Nat × Nat)
  | [] => []
  | Ev.i2cWrite r v :: t => (r, v) :: regWrites t
  | _ :: t => regWrites t

/-- The first register write of a trace, if any. -/
def firstRegWrite (t : List Ev) : Option (Nat × Nat) :=
  (regWrites t).head?

/-- Whether a trace contains a write to the bus-isolation line. -/
def touchesIso : List Ev → Bool
  | [] => false
  | Ev.setIso _ :: _ => true
  | _ :: t => touchesIso t

/-- The spec's three-valued `PanelState`.  The C driver represents its
sequencing state as the single boolean `enabled`; `Faulted` has no
representation in the code. -/
inductive PanelState where
  | Inactive
  | Active
  | Faulted
  deriving DecidableEq, Repr

/-- The observable `PanelState` of a panel, as determined by the only
state the code keeps: `enabled = false ↦ Inactive`,
`enabled = true ↦ Active`. -/
def panelState (p : Panel) : PanelState :=
  if p.enabled then PanelState.Active else PanelState.Inactive

/-- An environment in which every fallible call succeeds. -/
def envOk : Env :=
  { regulatorEnableRet := 0, writeSleepOnRet := 0, writeDispOnRet := 0,
    writeDispOffRet := 0, writeSleepOffRet := 0, regulatorDisableRet := 0 }

/-- A fully de-energised initial panel: `enabled = false`, rail off, all
lines low, backlight blanked and dark with `max_brightness = 255`. -/
def panel0 : Panel :=
  { enabled := false, railOn := false, resb := false, clk := false,
    i2ciso := false, blPower := FB_BLANK_POWERDOWN,
    blState := BL_CORE_FBBLANK, blBrightness := 0, blMaxBrightness := 255 }

/-- `panel0` with the `enabled` flag set, i.e. an `Active` panel. -/
def panelActive : Panel := { panel0 with enabled := true }

/-- Environment injecting a failure (`-EINVAL`) into `regulator_enable`. -/
def envRailFail : Env := { envOk with regulatorEnableRet := -22 }

/-- Environment injecting a failure (`-EIO`) into the first register write
of `sharp_ls_enable` (the `LS037V7DW06_SLEEP_ON` write). -/
def envSleepWriteFail : Env := { envOk with writeSleepOnRet := -5 }

/-- The activation order of spec §4.1 as a trace shape: reset low,
isolation low, rail enable, wait ≥ 10 ms, reset high, wait ≥ 1 ms, first
register write, wait ≥ 100 ms, second register write, clock high,
backlight apply. -/
def activateOrderOK : List Ev → Bool
  | [Ev.setResb false, Ev.setIso false, Ev.regEnable, Ev.sleepMs a,
     Ev.setResb true, Ev.sleepMs b, Ev.i2cWrite _ _, Ev.sleepMs c,
     Ev.i2cWrite _ _, Ev.setClk true, Ev.backlightUpdate] =>
      decide (10 ≤ a) && decide (1 ≤ b) && decide (100 ≤ c)
  | _ => false

/-- The deactivation order of spec §4.1 as a trace shape: backlight apply,
clock low, wait ≥ 1 ms, DisplayOff (0x28) write, wait ≥ 20 ms, second
register write, wait ≥ 100 ms, reset low, wait ≥ 1 ms, rail disable. -/
def deactivateOrderOK : List Ev → Bool
  | [Ev.backlightUpdate, Ev.setClk false, Ev.sleepMs a,
     Ev.i2cWrite 0x28 _, Ev.sleepMs b, Ev.i2cWrite _ _, Ev.sleepMs c,
     Ev.setResb false, Ev.sleepMs d, Ev.regDisable] =>
      decide (1 ≤ a) && decide (20 ≤ b) && decide (100 ≤ c) && decide (1 ≤ d)
  | _ => false

/-- C1, counterexample: on an all-success run from the de-energised panel,
`activate` succeeds and its first register write carries register address
0x11 (the `LS037V7DW06_SLEEP_ON` macro), not 0x10 as the claim states. -/
theorem c1_first_write_counterexample :
    (sharp_ls_enable envOk panel0).1 = 0 ∧
    firstRegWrite (sharp_ls_enable envOk panel0).2.2 = some (0x11, 0x00) ∧
    (0x11 : Nat) ≠ 0x10 := by
  refine ⟨by decide, by decide, by decide⟩

/-- C1, amended: for every successful `activate` call the first register
address written over the bus equals 0x11, the value of the
`LS037V7DW06_SLEEP_ON` macro (the second write is `LS037V7DW06_DISP_ON`,
0x29). -/
theorem c1_first_write (env : Env) (p : Panel)
    (h : (sharp_ls_enable env p).1 = 0) :
    firstRegWrite (sharp_ls_enable env p).2.2 =
      some (LS037V7DW06_SLEEP_ON, 0x00) ∧ LS037V7DW06_SLEEP_ON = 0x11 := by
  by_cases h1 : env.regulatorEnableRet = 0 <;>
  by_cases h2 : env.writeSleepOnRet = 0 <;>
  by_cases h3 : env.writeDispOnRet = 0 <;>
  simp_all [sharp_ls_enable, firstRegWrite, regWrites, LS037V7DW06_SLEEP_ON]

theorem c1_first_write_witness :
    firstRegWrite (sharp_ls_enable envOk panel0).2.2 =
      some (LS037V7DW06_SLEEP_ON, 0x00) ∧ LS037V7DW06_SLEEP_ON = 0x11 :=
  c1_first_write envOk panel0 (by decide)

/-- C2, counterexample: on an all-success `deactivate` run the two
register writes carry addresses 0x28 then 0x10 — the second is not 0x11 as
the claim states. -/
theorem c2_write_values_counterexample :
    (sharp_ls_disable envOk panel0).1 = 0 ∧
    regWrites (sharp_ls_disable envOk panel0).2.2 =
      [(0x28, 0x00), (0x10, 0x00)] ∧ (0x10 : Nat) ≠ 0x11 := by
  refine ⟨by decide, by decide, by decide⟩

/-- C2, amended: during every successful `deactivate` exactly two register
writes occur, with literal addresses 0x28 (`LS037V7DW06_DISP_OFF`) first
and then 0x10 (`LS037V7DW06_SLEEP_OFF`), in that order. -/
theorem c2_write_values (env : Env) (p : Panel)
    (h : (sharp_ls_disable env p).1 = 0) :
    regWrites (sharp_ls_disable env p).2.2 =
      [(LS037V7DW06_DISP_OFF, 0x00), (LS037V7DW06_SLEEP_OFF, 0x00)] ∧
    LS037V7DW06_DISP_OFF = 0x28 ∧ LS037V7DW06_SLEEP_OFF = 0x10 := by
  by_cases h1 : env.writeDispOffRet = 0 <;>
  by_cases h2 : env.writeSleepOffRet = 0 <;>
  by_cases h3 : env.regulatorDisableRet = 0 <;>
  simp_all [sharp_ls_disable, regWrites, LS037V7DW06_DISP_OFF,
    LS037V7DW06_SLEEP_OFF]

theorem c2_write_values_witness :
    regWrites (sharp_ls_disable envOk panel0).2.2 =
      [(LS037V7DW06_DISP_OFF, 0x00), (LS037V7DW06_SLEEP_OFF, 0x00)] ∧
    LS037V7DW06_DISP_OFF = 0x28 ∧ LS037V7DW06_SLEEP_OFF = 0x10 :=
  c2_write_values envOk panel0 (by decide)

/-- C3, code bug: `sharp_ls_disable` never clears the `enabled` flag, so a
successful `activate` followed by a successful `deactivate` leaves the
flag `true` and the observable `PanelState` equal to `Active`, not the
`Inactive` the claim (and the flag's own purpose, set with the comment
"Mark the panel as enabled") requires. -/
theorem c3_disable_leaves_enabled :
    (sharp_ls_enable envOk panel0).1 = 0 ∧
    (sharp_ls_disable envOk (sharp_ls_enable envOk panel0).2.1).1 = 0 ∧
    (sharp_ls_disable envOk (sharp_ls_enable envOk panel0).2.1).2.1.enabled
      = true ∧
    panelState (sharp_ls_disable envOk (sharp_ls_enable envOk panel0).2.1).2.1
      = PanelState.Active := by
  refine ⟨by decide, by decide, by decide, by decide⟩

/-- C4, counterexample: calling `activate` on a panel whose state is
already `Active` does not return an error at all — it returns 0 (success),
issues both register writes and produces the full eleven-action trace; and
calling `deactivate` on an `Inactive` panel likewise returns 0 and issues
both of its writes.  No precondition is checked and resource mutation is
not suppressed. -/
theorem c4_no_precondition_counterexample :
    (sharp_ls_enable envOk panelActive).1 = 0 ∧
    regWrites (sharp_ls_enable envOk panelActive).2.2 ≠ [] ∧
    (sharp_ls_enable envOk panelActive).2.2.length = 11 ∧
    (sharp_ls_disable envOk panel0).1 = 0 ∧
    regWrites (sharp_ls_disable envOk panel0).2.2 ≠ [] := by
  refine ⟨by decide, by decide, by decide, by decide, by decide⟩

/-- C4, amended: neither operation checks the `enabled` flag: the result
and the trace of `sharp_ls_enable` and of `sharp_ls_disable` are
independent of the flag's entry value, so a misuse call performs the full
resource-mutation sequence of a normal call instead of returning a
precondition error. -/
theorem c4_no_precondition_check (env : Env) (p : Panel) (b : Bool) :
    ((sharp_ls_enable env { p with enabled := b }).1 =
      (sharp_ls_enable env p).1 ∧
     (sharp_ls_enable env { p with enabled := b }).2.2 =
      (sharp_ls_enable env p).2.2) ∧
    ((sharp_ls_disable env { p with enabled := b }).1 =
      (sharp_ls_disable env p).1 ∧
     (sharp_ls_disable env { p with enabled := b }).2.2 =
      (sharp_ls_disable env p).2.2) := by
  by_cases h1 : env.regulatorEnableRet = 0 <;>
  by_cases h2 : env.writeSleepOnRet = 0 <;>
  by_cases h3 : env.writeDispOnRet = 0 <;>
  by_cases h4 : env.writeDispOffRet = 0 <;>
  by_cases h5 : env.writeSleepOffRet = 0 <;>
  by_cases h6 : env.regulatorDisableRet = 0 <;>
  simp_all [sharp_ls_enable, sharp_ls_disable]

/-- C5, counterexample: when `regulator_enable` fails with -22 during
`activate`, the call aborts with -22 and no register write is issued, but
the observable state is `Inactive` (the `enabled` flag is untouched and
the code has no `Faulted` representation), not `Faulted` as the claim
states. -/
theorem c5_rail_fail_counterexample :
    (sharp_ls_enable envRailFail panel0).1 = -22 ∧
    regWrites (sharp_ls_enable envRailFail panel0).2.2 = [] ∧
    panelState (sharp_ls_enable envRailFail panel0).2.1 =
      PanelState.Inactive ∧
    PanelState.Inactive ≠ PanelState.Faulted := by
  refine ⟨by decide, by decide, by decide, by decide⟩

/-- C5, amended: if enabling the power rail fails during `activate`, the
call aborts returning the rail-enable error, no register write is ever
issued in that call, and the `enabled` flag is left unchanged — the driver
records no distinct `Faulted` state. -/
theorem c5_rail_fail_aborts (env : Env) (p : Panel)
    (h : env.regulatorEnableRet ≠ 0) :
    (sharp_ls_enable env p).1 = env.regulatorEnableRet ∧
    regWrites (sharp_ls_enable env p).2.2 = [] ∧
    (sharp_ls_enable env p).2.1.enabled = p.enabled := by
  simp_all [sharp_ls_enable, regWrites]

theorem c5_rail_fail_aborts_witness :
    (sharp_ls_enable envRailFail panel0).1 =
      envRailFail.regulatorEnableRet ∧
    regWrites (sharp_ls_enable envRailFail panel0).2.2 = [] ∧
    (sharp_ls_enable envRailFail panel0).2.1.enabled = panel0.enabled :=
  c5_rail_fail_aborts envRailFail panel0 (by decide)

/-- C6, counterexample: when the first register write of `activate` fails
with -5, the call aborts with -5 and the clock line and backlight are
untouched, but the observable state is `Inactive` (the `enabled` flag is
untouched and the code has no `Faulted` representation), not `Faulted` as
the claim states. -/
theorem c6_sleep_write_fail_counterexample :
    (sharp_ls_enable envSleepWriteFail panel0).1 = -5 ∧
    (sharp_ls_enable envSleepWriteFail panel0).2.1.clk = panel0.clk ∧
    Ev.backlightUpdate ∉ (sharp_ls_enable envSleepWriteFail panel0).2.2 ∧
    panelState (sharp_ls_enable envSleepWriteFail panel0).2.1 =
      PanelState.Inactive ∧
    PanelState.Inactive ≠ PanelState.Faulted := by
  refine ⟨by decide, by decide, by decide, by decide, by decide⟩

/-- C6, amended: if the first register write (the sleep-mode write) fails
during `activate`, the call aborts returning that write's error, the clock
line, the backlight fields and the `enabled` flag keep their entry values,
and the trace contains no clock-line action and no backlight apply — but
the driver records no distinct `Faulted` state. -/
theorem c6_sleep_write_fail_aborts (env : Env) (p : Panel)
    (h1 : env.regulatorEnableRet = 0) (h2 : env.writeSleepOnRet ≠ 0) :
    (sharp_ls_enable env p).1 = env.writeSleepOnRet ∧
    (sharp_ls_enable env p).2.1.clk = p.clk ∧
    (sharp_ls_enable env p).2.1.blPower = p.blPower ∧
    (sharp_ls_enable env p).2.1.blState = p.blState ∧
    (sharp_ls_enable env p).2.1.blBrightness = p.blBrightness ∧
    (sharp_ls_enable env p).2.1.enabled = p.enabled ∧
    (∀ v, Ev.setClk v ∉ (sharp_ls_enable env p).2.2) ∧
    Ev.backlightUpdate ∉ (sharp_ls_enable env p).2.2 := by
  simp_all [sharp_ls_enable]

theorem c6_sleep_write_fail_aborts_witness :
    (sharp_ls_enable envSleepWriteFail panel0).1 =
      envSleepWriteFail.writeSleepOnRet ∧
    (sharp_ls_enable envSleepWriteFail panel0).2.1.clk = panel0.clk ∧
    (sharp_ls_enable envSleepWriteFail panel0).2.1.blPower =
      panel0.blPower ∧
    (sharp_ls_enable envSleepWriteFail panel0).2.1.blState =
      panel0.blState ∧
    (sharp_ls_enable envSleepWriteFail panel0).2.1.blBrightness =
      panel0.blBrightness ∧
    (sharp_ls_enable envSleepWriteFail panel0).2.1.enabled =
      panel0.enabled ∧
    (∀ v, Ev.setClk v ∉ (sharp_ls_enable envSleepWriteFail panel0).2.2) ∧
    Ev.backlightUpdate ∉ (sharp_ls_enable envSleepWriteFail panel0).2.2 :=
  c6_sleep_write_fail_aborts envSleepWriteFail panel0 (by decide) (by decide)

/-- C7: every successful `activate` trace has exactly the §4.1 activation
shape with waits 10 ms, 1 ms and 100 ms (each ≥ its specified minimum),
and every successful `deactivate` trace has exactly the §4.1 deactivation
shape with waits 1 ms, 20 ms, 100 ms and 1 ms (each ≥ its minimum): steps
occur strictly in the listed order. -/
theorem c7_order_and_waits (env env' : Env) (p q : Panel) :
    ((sharp_ls_enable env p).1 = 0 →
      activateOrderOK (sharp_ls_enable env p).2.2 = true) ∧
    ((sharp_ls_disable env' q).1 = 0 →
      deactivateOrderOK (sharp_ls_disable env' q).2.2 = true) := by
  constructor
  · intro h
    by_cases h1 : env.regulatorEnableRet = 0 <;>
    by_cases h2 : env.writeSleepOnRet = 0 <;>
    by_cases h3 : env.writeDispOnRet = 0 <;>
    simp_all [sharp_ls_enable, activateOrderOK]
  · intro h
    by_cases h4 : env'.writeDispOffRet = 0 <;>
    by_cases h5 : env'.writeSleepOffRet = 0 <;>
    by_cases h6 : env'.regulatorDisableRet = 0 <;>
    simp_all [sharp_ls_disable, deactivateOrderOK, LS037V7DW06_DISP_OFF]

theorem c7_order_and_waits_witness :
    activateOrderOK (sharp_ls_enable envOk panel0).2.2 = true ∧
    deactivateOrderOK (sharp_ls_disable envOk panelActive).2.2 = true :=
  ⟨(c7_order_and_waits envOk envOk panel0 panelActive).1 (by decide),
   (c7_order_and_waits envOk envOk panel0 panelActive).2 (by decide)⟩

/-- C8: `sharp_ls_disable` never touches the bus-isolation line — for
every call, successful or failed, its trace contains no isolation-line
action and the line keeps its entry level; `sharp_ls_enable` is the only
operation that drives it, and drives it low. -/
theorem c8_disable_keeps_iso (env : Env) (p : Panel) :
    (sharp_ls_disable env p).2.1.i2ciso = p.i2ciso ∧
    touchesIso (sharp_ls_disable env p).2.2 = false ∧
    (sharp_ls_enable env p).2.1.i2ciso = false := by
  by_cases h1 : env.regulatorEnableRet = 0 <;>
  by_cases h2 : env.writeSleepOnRet = 0 <;>
  by_cases h3 : env.writeDispOnRet = 0 <;>
  by_cases h4 : env.writeDispOffRet = 0 <;>
  by_cases h5 : env.writeSleepOffRet = 0 <;>
  by_cases h6 : env.regulatorDisableRet = 0 <;>
  simp_all [sharp_ls_enable, sharp_ls_disable, touchesIso]

/-- C9: `sharp_ls_enable` assigns `enabled := true` only on the
all-success path; every failing call (nonzero result) leaves the flag at
its entry value, so a failed activation from `enabled = false` is
indistinguishable, on the flag, from never having called it. -/
theorem c9_enabled_only_on_success (env : Env) (p : Panel) :
    ((sharp_ls_enable env p).1 ≠ 0 →
      (sharp_ls_enable env p).2.1.enabled = p.enabled) ∧
    ((sharp_ls_enable env p).1 = 0 →
      (sharp_ls_enable env p).2.1.enabled = true) := by
  by_cases h1 : env.regulatorEnableRet = 0 <;>
  by_cases h2 : env.writeSleepOnRet = 0 <;>
  by_cases h3 : env.writeDispOnRet = 0 <;>
  simp_all [sharp_ls_enable]

theorem c9_enabled_only_on_success_witness :
    (sharp_ls_enable envRailFail panel0).2.1.enabled = panel0.enabled ∧
    (sharp_ls_enable envOk panel0).2.1.enabled = true :=
  ⟨(c9_enabled_only_on_success envRailFail panel0).1 (by decide),
   (c9_enabled_only_on_success envOk panel0).2 (by decide)⟩

/-- C10: every `sharp_ls_disable` call — before its first fallible step,
hence unconditionally — powers down the backlight (`power = POWERDOWN`,
blank bit set, brightness 0, apply issued) and drives the clock line low:
the final state shows both regardless of injected failures, and the first
three trace actions are the backlight apply, the clock-low write and the
1 ms sleep. -/
theorem c10_disable_backlight_first (env : Env) (p : Panel) :
    (sharp_ls_disable env p).2.1.blPower = FB_BLANK_POWERDOWN ∧
    (sharp_ls_disable env p).2.1.blState = p.blState.lor BL_CORE_FBBLANK ∧
    (sharp_ls_disable env p).2.1.blBrightness = 0 ∧
    (sharp_ls_disable env p).2.1.clk = false ∧
    (sharp_ls_disable env p).2.2.take 3 =
      [Ev.backlightUpdate, Ev.setClk false, Ev.sleepMs 1] := by
  by_cases h4 : env.writeDispOffRet = 0 <;>
  by_cases h5 : env.writeSleepOffRet = 0 <;>
  by_cases h6 : env.regulatorDisableRet = 0 <;>
  simp_all [sharp_ls_disable]
